import Mathlib

/-! Verification of the `stargazed` pipeline (`src/index.js`): a shallow
embedding of the option validator, the paginated fetch loop, the
language aggregator and the surrounding pipeline control flow, together
with theorems settling the specification's claims. -/

set_option linter.all false

namespace Stargazed

/-! ## JavaScript values

The option-handling code manipulates loosely typed JavaScript values:
strings, booleans, numbers, `null` and `undefined`.  Numbers are modelled
as integers (the options logic never produces a float or `NaN`). -/

/-- JavaScript primitive values as seen by the validator. -/
inductive JSVal where
  | vStr (s : String)
  | vBool (b : Bool)
  | vNum (n : Int)
  | vNull
  | vUndef
deriving DecidableEq

/-- JavaScript truthiness: `""`, `false`, `0`, `null`, `undefined` are falsy. -/
def truthy : JSVal → Bool
  | .vStr s => s != ""
  | .vBool b => b
  | .vNum n => n != 0
  | .vNull => false
  | .vUndef => false

/-- The JavaScript `a || b` operator on values. -/
def jsOr (a b : JSVal) : JSVal := if truthy a then a else b

/-- `validate.io-string-primitive`: true exactly on string primitives. -/
def isStringPrim : JSVal → Bool
  | .vStr _ => true
  | _ => false

/-- `validate.io-boolean-primitive`: true exactly on boolean primitives. -/
def isBooleanPrim : JSVal → Bool
  | .vBool _ => true
  | _ => false

/-- Reading a possibly-absent object property: an absent key reads as `undefined`. -/
def jget : Option JSVal → JSVal
  | none => .vUndef
  | some v => v

/-! ## String helpers from the source

`String.prototype.htmlEscape` iterates the escape table
(first entry `>` to `&gt;`, then `<` to `&lt;`, in insertion order) and
applies each entry as a global regex replacement
(`escStr.replace(new RegExp(key, 'g'), value)`).  A global replacement of a
single-character pattern is a character-wise expansion of the string. -/

/-- One global-replacement pass for the table entry `>` to `&gt;`. -/
def escGT (c : Char) : List Char := if c = '>' then "&gt;".data else [c]

/-- One global-replacement pass for the table entry `<` to `&lt;`. -/
def escLT (c : Char) : List Char := if c = '<' then "&lt;".data else [c]

/-- `String.prototype.htmlEscape` on character lists: the `>` pass, then the `<` pass. -/
def htmlEscapeL (l : List Char) : List Char := (l.flatMap escGT).flatMap escLT

/-- `String.prototype.htmlEscape` from the source. -/
def htmlEscape (s : String) : String := ⟨htmlEscapeL s.data⟩

/-- JavaScript `str.replace(pat, '')` with a plain string pattern removes only
the first occurrence; the source uses it with the single character `\n`. -/
def removeFirst (c : Char) : List Char → List Char
  | [] => []
  | x :: xs => if x = c then xs else x :: removeFirst c xs

/-- Whitespace characters stripped by `String.prototype.trim` (the instances
appearing in this pipeline's data; the polyfill in the source uses `\s`). -/
def isJsSpace (c : Char) : Bool := c = ' ' || c = '\t' || c = '\n' || c = '\r'

/-- `String.prototype.trim`: strip one leading and one trailing whitespace run. -/
def jsTrim (s : String) : String :=
  ⟨((s.data.dropWhile isJsSpace).reverse.dropWhile isJsSpace).reverse⟩

/-! ## Starred items and the aggregator -/

/-- One fetched starred-repository entry, with its nullable fields. -/
structure StarredItem where
  name : String
  description : Option String
  html_url : String
  language : Option String
deriving DecidableEq

/-- `description ? description.htmlEscape().replace('\n', '') : ''`, followed by
the `.trim()` applied at the push site.  A `null`/`undefined` or empty
description is falsy and yields the empty string. -/
def cleanDesc : Option String → String
  | none => ""
  | some s =>
    if s != "" then jsTrim ⟨removeFirst '\n' (htmlEscape s).data⟩ else ""

/-- `language = language || 'Others'`: a `null`/`undefined` or empty language
falls back to the literal string `Others`. -/
def effLang : Option String → String
  | none => "Others"
  | some s => if s != "" then s else "Others"

/-- The `[name, html_url, description.trim()]` triple pushed by the aggregator. -/
abbrev Triple := String × String × String

/-- The triple the aggregator builds for one item. -/
def itemTriple (it : StarredItem) : Triple :=
  (it.name, it.html_url, cleanDesc it.description)

/-- The `stargazed` object, modelled as an insertion-ordered association list
(one entry per key, new keys appended at the end, matching `Object.keys`
order for the non-numeric language names).  `pushTriple` is
`if (!(language in stargazed)) stargazed[language] = [];
stargazed[language].push(triple)`. -/
def pushTriple : List (String × List Triple) → String → Triple → List (String × List Triple)
  | [], lang, t => [(lang, [t])]
  | (k, v) :: rest, lang, t =>
    if k = lang then (k, v ++ [t]) :: rest else (k, v) :: pushTriple rest lang t

/-- The aggregation step applied to each fetched item in order. -/
def aggStep (g : List (String × List Triple)) (it : StarredItem) : List (String × List Triple) :=
  pushTriple g (effLang it.language) (itemTriple it)

/-- The aggregator: the `responseBody.map(item => ...)` loop building `stargazed`. -/
def aggregate (items : List StarredItem) : List (String × List Triple) :=
  items.foldl aggStep []

/-- Reading `stargazed[language]`: the entry for a key (empty when absent). -/
def bucket : List (String × List Triple) → String → List Triple
  | [], _ => []
  | (k, v) :: rest, lang => if k = lang then v else bucket rest lang

/-- Total number of triples stored across all languages. -/
def tripleCount : List (String × List Triple) → Nat
  | [] => 0
  | (_, v) :: rest => v.length + tripleCount rest

/-- Character-wise description of escaping every occurrence of both brackets. -/
def escChar (c : Char) : List Char :=
  if c = '>' then "&gt;".data else if c = '<' then "&lt;".data else [c]

/-! ## The paginated fetch loop -/

/-- One response from the starred-items endpoint: the JSON body and the
optional `link` pagination header. -/
structure FetchResponse (α : Type) where
  body : List α
  link : Option String

/-- Whether `pat` is a leading segment of the list. -/
def leadsWith : List Char → List Char → Bool
  | [], _ => true
  | _ :: _, [] => false
  | a :: as, b :: bs => a == b && leadsWith as bs

/-- Whether `pat` occurs as a contiguous segment of the list. -/
def containsSub (pat : List Char) : List Char → Bool
  | [] => pat.isEmpty
  | c :: rest => leadsWith pat (c :: rest) || containsSub pat rest

/-- JavaScript `s.includes(sub)`: `sub` occurs as a substring of `s`. -/
def jsIncludes (s sub : String) : Bool := containsSub sub.data s.data

/-- `headers.link && headers.link.includes('next')`: an absent header is falsy. -/
def hasNextLink : Option String → Bool
  | none => false
  | some s => jsIncludes s "next"

/-- The recursive `loop` from the source: request the current page, append the
body to the accumulator, and recurse with `page + 1` while the `link` header
contains `next`.  The JavaScript recursion is unbounded, so the embedding
takes a fuel parameter; `none` marks fuel exhaustion (the loop still
running).  The result carries the accumulated items and the number of
requests issued. -/
def loop {α : Type} (endpoint : Nat → FetchResponse α) :
    Nat → Nat → List α → Option (List α × Nat)
  | 0, _, _ => none
  | fuel + 1, page, acc =>
    let r := endpoint page
    let acc' := acc ++ r.body
    if hasNextLink r.link then
      (loop endpoint fuel (page + 1) acc').map (fun p => (p.1, p.2 + 1))
    else
      some (acc', 1)

/-! ## Spec-side model of pagination metadata

Modelled from the spec: the response's pagination metadata "advertises a
next relation".  A parsed `link` header is a list of `(url, rel)` pairs;
`renderLinkHeader` prints it back in the standard
`<url>; rel="relname"` comma-separated form. -/

/-- Render a parsed link header back to its standard textual form. -/
def renderLinkHeader (rels : List (String × String)) : String :=
  String.intercalate ", " (rels.map (fun p => "<" ++ p.1 ++ ">; rel=\"" ++ p.2 ++ "\""))

/-- Modelled from the spec: the header advertises a `next` relation exactly
when some entry's relation name is `next`. -/
def specAdvertisesNext (rels : List (String × String)) : Bool :=
  rels.any (fun p => p.2 == "next")

/-! ## The options record and the validator -/

/-- The module-level `options` record the validator writes into. -/
@[ext]
structure Options where
  username : JSVal
  token : JSVal
  repo : JSVal
  message : JSVal
  sort : JSVal
  version : JSVal
  help : JSVal
deriving DecidableEq

/-- The record at module load: every field reads as `undefined`. -/
def initOptions : Options :=
  ⟨.vUndef, .vUndef, .vUndef, .vUndef, .vUndef, .vUndef, .vUndef⟩

/-- The raw `_options` argument: each recognized key (long and short alias)
is either absent or present with a value.  Unrecognized keys are ignored by
the source and therefore not modelled. -/
structure InputOptions where
  username : Option JSVal := none
  u : Option JSVal := none
  token : Option JSVal := none
  t : Option JSVal := none
  repo : Option JSVal := none
  r : Option JSVal := none
  message : Option JSVal := none
  m : Option JSVal := none
  sort : Option JSVal := none
  s : Option JSVal := none
  version : Option JSVal := none
  v : Option JSVal := none
  help : Option JSVal := none
  h : Option JSVal := none
deriving DecidableEq

/-- `hasOwnProperty('username') || hasOwnProperty('u')`. -/
def presentUser (i : InputOptions) : Bool := i.username.isSome || i.u.isSome

/-- `_options.username || _options.u`. -/
def coalUser (i : InputOptions) : JSVal := jsOr (jget i.username) (jget i.u)

/-- The username field after the username block: assigned only when present. -/
def vUser (i : InputOptions) (old : JSVal) : JSVal :=
  if presentUser i then coalUser i else old

/-- The username block fails exactly when the key is present and the stored
coalesced value is not a string primitive. -/
def badUser (i : InputOptions) : Bool := presentUser i && !(isStringPrim (coalUser i))

def presentToken (i : InputOptions) : Bool := i.token.isSome || i.t.isSome

def coalToken (i : InputOptions) : JSVal := jsOr (jget i.token) (jget i.t)

def vToken (i : InputOptions) (old : JSVal) : JSVal :=
  if presentToken i then coalToken i else old

def badToken (i : InputOptions) : Bool := presentToken i && !(isStringPrim (coalToken i))

def presentRepo (i : InputOptions) : Bool := i.repo.isSome || i.r.isSome

def coalRepo (i : InputOptions) : JSVal := jsOr (jget i.repo) (jget i.r)

def vRepo (i : InputOptions) (old : JSVal) : JSVal :=
  if presentRepo i then coalRepo i else old

def badRepo (i : InputOptions) : Bool := presentRepo i && !(isStringPrim (coalRepo i))

def presentMessage (i : InputOptions) : Bool := i.message.isSome || i.m.isSome

def coalMessage (i : InputOptions) : JSVal := jsOr (jget i.message) (jget i.m)

def vMessage (i : InputOptions) (old : JSVal) : JSVal :=
  if presentMessage i then coalMessage i else old

def badMessage (i : InputOptions) : Bool :=
  presentMessage i && !(isStringPrim (coalMessage i))

def presentSort (i : InputOptions) : Bool := i.sort.isSome || i.s.isSome

def coalSort (i : InputOptions) : JSVal := jsOr (jget i.sort) (jget i.s)

def vSort (i : InputOptions) (old : JSVal) : JSVal :=
  if presentSort i then coalSort i else old

def badSort (i : InputOptions) : Bool := presentSort i && !(isBooleanPrim (coalSort i))

def presentVersion (i : InputOptions) : Bool := i.version.isSome || i.v.isSome

def coalVersion (i : InputOptions) : JSVal := jsOr (jget i.version) (jget i.v)

def vVersion (i : InputOptions) (old : JSVal) : JSVal :=
  if presentVersion i then coalVersion i else old

def badVersion (i : InputOptions) : Bool :=
  presentVersion i && !(isBooleanPrim (coalVersion i))

def presentHelp (i : InputOptions) : Bool := i.help.isSome || i.h.isSome

def coalHelp (i : InputOptions) : JSVal := jsOr (jget i.help) (jget i.h)

def vHelp (i : InputOptions) (old : JSVal) : JSVal :=
  if presentHelp i then coalHelp i else old

def badHelp (i : InputOptions) : Bool := presentHelp i && !(isBooleanPrim (coalHelp i))

def usernameErr : String := "invalid option. Username must be a string primitive."

def tokenErr : String := "invalid option. Token must be a string primitive."

def repoErr : String := "invalid option. Repo name must be a string primitive."

def messageErr : String := "invalid option. Commit message must be a string primitive."

def sortErr : String := "invalid option. Sort option must be a boolean primitive."

def versionErr : String := "invalid option. Version option must be a boolean primitive."

def helpErr : String := "invalid option. Help option must be a boolean primitive."

/-- The `validate` function.  Each block first stores the coalesced alias value
into the shared `options` record (when either alias key is present), then
type-checks the stored value, returning the TypeError message on the first
failure; later blocks are then not executed, but the mutations made so far
remain in the record.  The function returns the record state together with
the optional error. -/
def validate (st : Options) (i : InputOptions) : Options × Option String :=
  let st1 := { st with username := vUser i st.username }
  if badUser i then (st1, some usernameErr) else
  let st2 := { st1 with token := vToken i st1.token }
  if badToken i then (st2, some tokenErr) else
  let st3 := { st2 with repo := vRepo i st2.repo }
  if badRepo i then (st3, some repoErr) else
  let st4 := { st3 with message := vMessage i st3.message }
  if badMessage i then (st4, some messageErr) else
  let st5 := { st4 with sort := vSort i st4.sort }
  if badSort i then (st5, some sortErr) else
  let st6 := { st5 with version := vVersion i st5.version }
  if badVersion i then (st6, some versionErr) else
  let st7 := { st6 with help := vHelp i st6.help }
  if badHelp i then (st7, some helpErr) else
  (st7, none)

/-! ## The exported pipeline -/

/-- The context object `{ languages, username, stargazed }` bound into the
template by `buildReadmeContent`. -/
structure RenderCtx where
  languages : List String
  username : JSVal
  stargazed : List (String × List Triple)

/-- `lodash.unescape` as used by `writeReadmeContent`: a single left-to-right
pass replacing the five basic HTML entities with their characters. -/
def unescapeL : List Char → List Char
  | '&' :: 'a' :: 'm' :: 'p' :: ';' :: rest => '&' :: unescapeL rest
  | '&' :: 'l' :: 't' :: ';' :: rest => '<' :: unescapeL rest
  | '&' :: 'g' :: 't' :: ';' :: rest => '>' :: unescapeL rest
  | '&' :: 'q' :: 'u' :: 'o' :: 't' :: ';' :: rest => '"' :: unescapeL rest
  | '&' :: '#' :: '3' :: '9' :: ';' :: rest => Char.ofNat 39 :: unescapeL rest
  | c :: rest => c :: unescapeL rest
  | [] => []

/-- `lodash.unescape` on strings. -/
def unescapeStr (s : String) : String := ⟨unescapeL s.data⟩

/-- Outcome of one invocation of the exported function: a fatal
`flashError` (which prints the message and exits with status 1), an early
return on the unimplemented `help`/`version` paths, fuel exhaustion of the
fetch loop, or completion with the bytes written to `README.md`. -/
inductive RunResult where
  | fatal (msg : String)
  | early
  | diverged
  | done (readme : String)
deriving DecidableEq

/-- Whether the run ended in `flashError` (non-zero process exit). -/
def isFatal : RunResult → Bool
  | .fatal _ => true
  | _ => false

/-- The body of `module.exports` after validation.  `st` is the `options`
record after `validate`; `err` the validation error.  The template renderer
(`ejs.render` over the loaded template) is abstracted as the pure function
`render`; `endpoint` maps a page number to the mock response (a fetch
failure path is not modelled: every claim concerns successful responses or
aborts before the first request).  The second result component is the
number of network requests issued.  In the source, `flashError` calls
`process.exit(1)`, so each fatal branch terminates the run before the fetch
loop is reached. -/
def afterValidate (st : Options) (err : Option String)
    (endpoint : Nat → FetchResponse StarredItem) (fuel : Nat)
    (render : String → RenderCtx → String) (template : String) : RunResult × Nat :=
  match err with
  | some msg => (.fatal msg, 0)
  | none =>
    if truthy st.help then (.early, 0)
    else if truthy st.version then (.early, 0)
    else if !truthy st.username then (.fatal "Error! username is a required field.", 0)
    else if truthy st.repo && !truthy st.token then
      (.fatal "Error: creating repository needs token. Set --token", 0)
    else
      match loop endpoint fuel 1 [] with
      | none => (.diverged, fuel)
      | some (items, n) =>
        let stargazed := aggregate items
        let languages := stargazed.map (fun p => p.1)
        let readme := render template ⟨languages, st.username, stargazed⟩
        (.done (unescapeStr readme), n)

/-- One invocation of the exported function: validate into the shared
module-level record, then run the pipeline.  The returned record is the
module-level state visible to later invocations. -/
def runPipeline (st : Options) (i : InputOptions)
    (endpoint : Nat → FetchResponse StarredItem) (fuel : Nat)
    (render : String → RenderCtx → String) (template : String) :
    Options × RunResult × Nat :=
  ((validate st i).1, afterValidate (validate st i).1 (validate st i).2 endpoint fuel render template)

/-! ## Concrete test data used by the claim theorems -/

/-- Mock endpoint for the pagination test: pages 1 to 3 serve 100 items each
with a `next` link, page 4 serves one item with only a `prev` link.  An item
is identified by its global position `(page - 1) * 100 + index`, so the
returned list being `List.range 301` states both the count and the
page-then-in-page order. -/
def mockEndpoint : Nat → FetchResponse Nat := fun page =>
  if page ≤ 3 then
    ⟨List.range' ((page - 1) * 100) 100,
     some "<https://api.github.com/users/someone/starred?per_page=100&page=2>; rel=\"next\""⟩
  else if page = 4 then
    ⟨[300], some "<https://api.github.com/users/someone/starred?per_page=100&page=3>; rel=\"prev\""⟩
  else ⟨[], none⟩

/-- A well-formed link header advertising only a `prev` relation, whose URL
happens to contain the letters `next` (the username is `nextfan`). -/
def prevOnlyRels : List (String × String) :=
  [("https://api.github.com/users/nextfan/starred?per_page=100&page=1", "prev")]

/-- An endpoint that always answers with an empty page and no link header. -/
def epEmpty : Nat → FetchResponse StarredItem := fun _ => ⟨[], none⟩

/-- A trivial template renderer standing in for `ejs.render`. -/
def renderConst : String → RenderCtx → String := fun _ _ => ""

/-- Input with `username` present as the empty string and no `u` alias. -/
def inputUsernameEmpty : InputOptions := { username := some (.vStr "") }

/-- Input with a valid username and `sort` present as the boolean `false`. -/
def inputSortFalse : InputOptions :=
  { username := some (.vStr "a"), sort := some (.vBool false) }

/-- Input with the short alias `u` present as the empty string and `username` absent. -/
def inputShortUEmpty : InputOptions := { u := some (.vStr "") }

/-- Input with a valid username and `sort` present as the number `5`. -/
def inputSortNum : InputOptions :=
  { username := some (.vStr "a"), sort := some (.vNum 5) }

/-- Input with `username` present as the number `7`. -/
def inputUserNum : InputOptions := { username := some (.vNum 7) }

/-- Input with no recognized keys at all. -/
def inputNone : InputOptions := {}

/-- Configuration with `repo` set and no token, but with `help` set. -/
def cfgHelpRepo : InputOptions :=
  { username := some (.vStr "a"), repo := some (.vStr "x"), help := some (.vBool true) }

/-- Configuration with `repo` set and no token (and no flags). -/
def cfgRepoNoToken : InputOptions :=
  { username := some (.vStr "alice"), repo := some (.vStr "stars") }

/-- First invocation input: sets `username` and `token`. -/
def inputRun1 : InputOptions :=
  { username := some (.vStr "a"), token := some (.vStr "tok") }

/-- Second invocation input: sets `username` and `repo` but no token. -/
def inputRun2 : InputOptions :=
  { username := some (.vStr "a"), repo := some (.vStr "x") }

/-- An item with no language and no description. -/
def c7Item : StarredItem := ⟨"tool", none, "https://example.com/tool", none⟩

end Stargazed


namespace Stargazed

/-- The two sequential single-character passes compose into one character-wise expansion. -/
theorem escGT_flatMap_escLT (c : Char) : (escGT c).flatMap escLT = escChar c := by
  by_cases h1 : c = '>'
  · subst h1; decide
  · by_cases h2 : c = '<'
    · subst h2; decide
    · simp [escGT, escLT, escChar, h1, h2]

theorem htmlEscapeL_eq (l : List Char) : htmlEscapeL l = l.flatMap escChar := by
  induction l with
  | nil => rfl
  | cons c l ih =>
    simp only [htmlEscapeL] at ih
    simp only [htmlEscapeL, List.flatMap_cons, List.flatMap_append]
    rw [escGT_flatMap_escLT, ih]

theorem bucket_pushTriple (g : List (String × List Triple)) (l : String) (t : Triple)
    (lang : String) :
    bucket (pushTriple g l t) lang =
      if l = lang then bucket g lang ++ [t] else bucket g lang := by
  induction g with
  | nil => by_cases h : l = lang <;> simp [bucket, pushTriple, h]
  | cons p rest ih =>
    obtain ⟨k, vv⟩ := p
    simp only [pushTriple]
    by_cases hkl : k = l
    · subst hkl
      by_cases h2 : k = lang
      · subst h2
        simp [bucket]
      · simp [bucket, h2]
    · rw [if_neg hkl]
      by_cases h2 : k = lang
      · have hl : ¬ l = lang := fun hx => hkl (h2.trans hx.symm)
        simp [bucket, h2, hl]
      · simp [bucket, h2, ih]

theorem tripleCount_pushTriple (g : List (String × List Triple)) (l : String) (t : Triple) :
    tripleCount (pushTriple g l t) = tripleCount g + 1 := by
  induction g with
  | nil => simp [tripleCount, pushTriple]
  | cons p rest ih =>
    obtain ⟨k, vv⟩ := p
    by_cases hkl : k = l <;> simp [tripleCount, pushTriple, hkl, ih] <;> omega

theorem bucket_foldl (items : List StarredItem) (g : List (String × List Triple))
    (lang : String) :
    bucket (items.foldl aggStep g) lang =
      bucket g lang ++ (items.filter (fun it => effLang it.language == lang)).map itemTriple := by
  induction items generalizing g with
  | nil => simp
  | cons it rest ih =>
    rw [List.foldl_cons, ih]
    by_cases h : effLang it.language = lang
    · simp [aggStep, bucket_pushTriple, h, List.filter_cons]
    · simp [aggStep, bucket_pushTriple, h, List.filter_cons]

theorem tripleCount_foldl (items : List StarredItem) (g : List (String × List Triple)) :
    tripleCount (items.foldl aggStep g) = tripleCount g + items.length := by
  induction items generalizing g with
  | nil => simp
  | cons it rest ih =>
    rw [List.foldl_cons, ih]
    simp [aggStep, tripleCount_pushTriple]
    omega


/-! ## Claim C1 -/

set_option maxRecDepth 10000 in
/-- C1: against the mock endpoint serving 3 pages of 100 items and then a final
page of 1 item whose response carries no `next` relation, the fetch loop
returns exactly the 301 items in page-then-in-page order (item `n` is the
`n`-th item served, so the result being `List.range 301` states both count
and order) and issues exactly 4 requests. -/
theorem c1_pagination_returns_301_items_4_requests :
    loop mockEndpoint 10 1 [] = some (List.range 301, 4) := by decide

/-! ## Claim C2 -/

/-- C2 counterexample: on the description `"<<"` the escaping rewrites BOTH
occurrences of `<`: the result is `"&lt;&lt;"` and not `"&lt;<"`, which the
claimed first-occurrence-only behavior would produce; no raw `<` is left. -/
theorem c2_counterexample_second_occurrence_also_escaped :
    htmlEscape "<<" = "&lt;&lt;" ∧ htmlEscape "<<" ≠ "&lt;<" ∧
    ((htmlEscape "<<").data.all (fun c => c != '<')) = true := by decide

/-- C2 (amended): the aggregator's escaping replaces EVERY occurrence of `<`
and every occurrence of `>` with its HTML entity: the escaped string is the
character-wise expansion of the input by `escChar` (which maps `>` to
`&gt;`, `<` to `&lt;` and leaves every other character unchanged). -/
theorem c2_escaping_replaces_all_occurrences (s : String) :
    (htmlEscape s).data = s.data.flatMap escChar := by
  show htmlEscapeL s.data = _
  exact htmlEscapeL_eq s.data

/-! ## Claim C4 -/

/-- C4 (amended): after a response, the loop requests a further page exactly
when the `link` header is present and contains the substring `next`; a
missing header, or one without that substring, terminates the loop with the
accumulated sequence. -/
theorem c4_loop_continues_iff_link_contains_next :
    (∀ (α : Type) (ep : Nat → FetchResponse α) (fuel page : Nat) (acc : List α),
      loop ep (fuel + 1) page acc =
        if hasNextLink (ep page).link then
          (loop ep fuel (page + 1) (acc ++ (ep page).body)).map (fun p => (p.1, p.2 + 1))
        else some (acc ++ (ep page).body, 1)) ∧
    hasNextLink none = false ∧
    (∀ s, hasNextLink (some s) = jsIncludes s "next") := by
  refine ⟨fun α ep fuel page acc => rfl, rfl, fun s => rfl⟩

/-- C4 counterexample: a well-formed link header advertising only a `prev`
relation (for user `nextfan`, whose URL contains the letters `next`) does
not advertise a `next` relation, yet the loop treats it as having a next
page and keeps requesting pages instead of terminating. -/
theorem c4_counterexample_prev_header_treated_as_next :
    specAdvertisesNext prevOnlyRels = false ∧
    hasNextLink (some (renderLinkHeader prevOnlyRels)) = true ∧
    loop (fun _ => (⟨[], some (renderLinkHeader prevOnlyRels)⟩ : FetchResponse Nat)) 5 1 []
      = none := by decide

/-! ## Claim C5 -/

/-- C5: cleaning the description `"  <script>bad</script>\ntext  "` yields
`"&lt;script&gt;bad&lt;/script&gt;text"`: no raw `<`, `>` or newline remains
and the leading/trailing whitespace is stripped (the result is its own trim). -/
theorem c5_script_description_cleaned :
    cleanDesc (some "  <script>bad</script>\ntext  ") = "&lt;script&gt;bad&lt;/script&gt;text" ∧
    ((cleanDesc (some "  <script>bad</script>\ntext  ")).data.all
      (fun c => c != '<' && c != '>' && c != '\n')) = true ∧
    jsTrim (cleanDesc (some "  <script>bad</script>\ntext  ")) =
      cleanDesc (some "  <script>bad</script>\ntext  ") := by decide

/-! ## Claim C6 -/

/-- C6: the grouping built by the aggregator partitions the fetched items:
the total triple count across all languages equals the number of fetched
items, and the bucket of every language is exactly the fetch-ordered list of
triples of the items whose effective language is that language (so each item
lands in exactly one bucket, in fetch order). -/
theorem c6_grouping_partitions_items (items : List StarredItem) :
    tripleCount (aggregate items) = items.length ∧
    ∀ lang, bucket (aggregate items) lang =
      (items.filter (fun it => effLang it.language == lang)).map itemTriple := by
  constructor
  · have h := tripleCount_foldl items []
    simpa [aggregate, tripleCount] using h
  · intro lang
    have h := bucket_foldl items [] lang
    simpa [aggregate, bucket] using h

/-! ## Claim C7 -/

/-- C7: an item whose language is absent (null) or empty is grouped under the
literal key `Others`, and an absent description yields the empty string in
the item's triple. -/
theorem c7_absent_language_goes_to_others (items : List StarredItem) (it : StarredItem)
    (hmem : it ∈ items) (hlang : it.language = none ∨ it.language = some "") :
    itemTriple it ∈ bucket (aggregate items) "Others" ∧
    (it.description = none → (itemTriple it).2.2 = "") := by
  have heff : effLang it.language = "Others" := by
    rcases hlang with h | h <;> simp [effLang, h]
  constructor
  · have hb := bucket_foldl items [] "Others"
    simp only [aggregate]
    rw [hb]
    simp only [bucket, List.nil_append]
    exact List.mem_map.mpr ⟨it, List.mem_filter.mpr ⟨hmem, by simp [heff]⟩, rfl⟩
  · intro hd
    simp [itemTriple, cleanDesc, hd]

/-- C7 witness: the concrete item with no language and no description lands in
the `Others` bucket with an empty description. -/
theorem c7_witness :
    itemTriple c7Item ∈ bucket (aggregate [c7Item]) "Others" ∧
    (c7Item.description = none → (itemTriple c7Item).2.2 = "") :=
  c7_absent_language_goes_to_others [c7Item] c7Item (by decide) (Or.inl rfl)


/-! ## Validator helper lemmas -/

theorem vUser_idem (i : InputOptions) (old : JSVal) :
    vUser i (vUser i old) = vUser i old := by
  by_cases h : presentUser i <;> simp [vUser, h]

theorem vToken_idem (i : InputOptions) (old : JSVal) :
    vToken i (vToken i old) = vToken i old := by
  by_cases h : presentToken i <;> simp [vToken, h]

theorem vRepo_idem (i : InputOptions) (old : JSVal) :
    vRepo i (vRepo i old) = vRepo i old := by
  by_cases h : presentRepo i <;> simp [vRepo, h]

theorem vMessage_idem (i : InputOptions) (old : JSVal) :
    vMessage i (vMessage i old) = vMessage i old := by
  by_cases h : presentMessage i <;> simp [vMessage, h]

theorem vSort_idem (i : InputOptions) (old : JSVal) :
    vSort i (vSort i old) = vSort i old := by
  by_cases h : presentSort i <;> simp [vSort, h]

theorem vVersion_idem (i : InputOptions) (old : JSVal) :
    vVersion i (vVersion i old) = vVersion i old := by
  by_cases h : presentVersion i <;> simp [vVersion, h]

theorem vHelp_idem (i : InputOptions) (old : JSVal) :
    vHelp i (vHelp i old) = vHelp i old := by
  by_cases h : presentHelp i <;> simp [vHelp, h]

/-- Flat characterization of `validate`: which record is returned, with which
error, in each of the eight control-flow outcomes.  The record in each branch
holds exactly the fields assigned before the failing check (all of them in
the error-free branch). -/
theorem validate_char (st : Options) (i : InputOptions) :
    validate st i =
      if badUser i then
        (⟨vUser i st.username, st.token, st.repo, st.message, st.sort, st.version, st.help⟩,
          some usernameErr)
      else if badToken i then
        (⟨vUser i st.username, vToken i st.token, st.repo, st.message, st.sort, st.version,
          st.help⟩, some tokenErr)
      else if badRepo i then
        (⟨vUser i st.username, vToken i st.token, vRepo i st.repo, st.message, st.sort,
          st.version, st.help⟩, some repoErr)
      else if badMessage i then
        (⟨vUser i st.username, vToken i st.token, vRepo i st.repo, vMessage i st.message,
          st.sort, st.version, st.help⟩, some messageErr)
      else if badSort i then
        (⟨vUser i st.username, vToken i st.token, vRepo i st.repo, vMessage i st.message,
          vSort i st.sort, st.version, st.help⟩, some sortErr)
      else if badVersion i then
        (⟨vUser i st.username, vToken i st.token, vRepo i st.repo, vMessage i st.message,
          vSort i st.sort, vVersion i st.version, st.help⟩, some versionErr)
      else if badHelp i then
        (⟨vUser i st.username, vToken i st.token, vRepo i st.repo, vMessage i st.message,
          vSort i st.sort, vVersion i st.version, vHelp i st.help⟩, some helpErr)
      else
        (⟨vUser i st.username, vToken i st.token, vRepo i st.repo, vMessage i st.message,
          vSort i st.sort, vVersion i st.version, vHelp i st.help⟩, none) := by
  simp only [validate]

/-- The error (and the block at which validation stops) depends only on the
raw input, never on the record's prior contents. -/
theorem validate_snd_indep (st1 st2 : Options) (i : InputOptions) :
    (validate st1 i).2 = (validate st2 i).2 := by
  rw [validate_char st1 i, validate_char st2 i]
  split_ifs <;> rfl

/-- The username field is always processed by the first block. -/
theorem validate_username_val (st : Options) (i : InputOptions) :
    (validate st i).1.username = vUser i st.username := by
  rw [validate_char st i]
  split_ifs <;> rfl

/-- The token field is updated unless the username block fails first. -/
theorem validate_token_val (st : Options) (i : InputOptions) :
    (validate st i).1.token = if badUser i then st.token else vToken i st.token := by
  rw [validate_char st i]
  split_ifs <;> rfl

theorem validate_repo_val (st : Options) (i : InputOptions) :
    (validate st i).1.repo =
      if badUser i || badToken i then st.repo else vRepo i st.repo := by
  rw [validate_char st i]
  split_ifs <;> simp_all

theorem validate_message_val (st : Options) (i : InputOptions) :
    (validate st i).1.message =
      if badUser i || badToken i || badRepo i then st.message
      else vMessage i st.message := by
  rw [validate_char st i]
  split_ifs <;> simp_all

theorem validate_sort_val (st : Options) (i : InputOptions) :
    (validate st i).1.sort =
      if badUser i || badToken i || badRepo i || badMessage i then st.sort
      else vSort i st.sort := by
  rw [validate_char st i]
  split_ifs <;> simp_all

theorem validate_version_val (st : Options) (i : InputOptions) :
    (validate st i).1.version =
      if badUser i || badToken i || badRepo i || badMessage i || badSort i then st.version
      else vVersion i st.version := by
  rw [validate_char st i]
  split_ifs <;> simp_all

theorem validate_help_val (st : Options) (i : InputOptions) :
    (validate st i).1.help =
      if badUser i || badToken i || badRepo i || badMessage i || badSort i || badVersion i
      then st.help else vHelp i st.help := by
  rw [validate_char st i]
  split_ifs <;> simp_all

/-- Re-validating the record produced by a validation run with the same raw
input leaves the record unchanged. -/
theorem validate_fst_idem (st : Options) (i : InputOptions) :
    (validate (validate st i).1 i).1 = (validate st i).1 := by
  apply Options.ext
  · rw [validate_username_val, validate_username_val, vUser_idem]
  · rw [validate_token_val, validate_token_val]
    by_cases h : badUser i <;> simp [h, vToken_idem]
  · rw [validate_repo_val, validate_repo_val]
    by_cases h : badUser i || badToken i <;> simp [h, vRepo_idem]
  · rw [validate_message_val, validate_message_val]
    by_cases h : badUser i || badToken i || badRepo i <;> simp [h, vMessage_idem]
  · rw [validate_sort_val, validate_sort_val]
    by_cases h : badUser i || badToken i || badRepo i || badMessage i <;>
      simp [h, vSort_idem]
  · rw [validate_version_val, validate_version_val]
    by_cases h : badUser i || badToken i || badRepo i || badMessage i || badSort i <;>
      simp [h, vVersion_idem]
  · rw [validate_help_val, validate_help_val]
    by_cases h : badUser i || badToken i || badRepo i || badMessage i || badSort i ||
      badVersion i <;> simp [h, vHelp_idem]

/-- Validation is idempotent on the shared record. -/
theorem validate_idem (st : Options) (i : InputOptions) :
    validate (validate st i).1 i = validate st i :=
  Prod.ext (validate_fst_idem st i) (validate_snd_indep (validate st i).1 st i)

/-- When validation reports no error, every field of the resulting record is
its block's update of the starting record. -/
theorem validate_ok_state (st : Options) (i : InputOptions)
    (h : (validate st i).2 = none) :
    (validate st i).1 = ⟨vUser i st.username, vToken i st.token, vRepo i st.repo,
      vMessage i st.message, vSort i st.sort, vVersion i st.version, vHelp i st.help⟩ := by
  rw [validate_char st i] at h ⊢
  split_ifs at h ⊢ <;> simp_all

/-- If any block's check fails, validation returns some error. -/
theorem validate_err_isSome (st : Options) (i : InputOptions)
    (h : (badUser i || badToken i || badRepo i || badMessage i ||
          badSort i || badVersion i || badHelp i) = true) :
    (validate st i).2 ≠ none := by
  rw [validate_char st i]
  split_ifs <;> simp_all


/-- Fields whose alias keys are both absent are never written by `validate`. -/
theorem validate_persists (st : Options) (i : InputOptions) :
    (i.username = none → i.u = none → (validate st i).1.username = st.username) ∧
    (i.token = none → i.t = none → (validate st i).1.token = st.token) ∧
    (i.repo = none → i.r = none → (validate st i).1.repo = st.repo) ∧
    (i.message = none → i.m = none → (validate st i).1.message = st.message) ∧
    (i.sort = none → i.s = none → (validate st i).1.sort = st.sort) ∧
    (i.version = none → i.v = none → (validate st i).1.version = st.version) ∧
    (i.help = none → i.h = none → (validate st i).1.help = st.help) := by
  refine ⟨?_, ?_, ?_, ?_, ?_, ?_, ?_⟩ <;> intro h1 h2
  · rw [validate_username_val]
    simp [vUser, presentUser, h1, h2]
  · rw [validate_token_val]
    split_ifs <;> simp [vToken, presentToken, h1, h2]
  · rw [validate_repo_val]
    split_ifs <;> simp [vRepo, presentRepo, h1, h2]
  · rw [validate_message_val]
    split_ifs <;> simp [vMessage, presentMessage, h1, h2]
  · rw [validate_sort_val]
    split_ifs <;> simp [vSort, presentSort, h1, h2]
  · rw [validate_version_val]
    split_ifs <;> simp [vVersion, presentVersion, h1, h2]
  · rw [validate_help_val]
    split_ifs <;> simp [vHelp, presentHelp, h1, h2]

/-! ## Falsy-long-alias lemmas: a present falsy long key with an absent short
alias coalesces to `undefined`, which fails both type checks. -/

theorem badUser_of_falsy (i : InputOptions) (v : JSVal)
    (hl : i.username = some v) (hf : truthy v = false) (ha : i.u = none) :
    badUser i = true := by
  simp [badUser, presentUser, coalUser, jsOr, jget, hl, ha, hf, isStringPrim]

theorem badToken_of_falsy (i : InputOptions) (v : JSVal)
    (hl : i.token = some v) (hf : truthy v = false) (ha : i.t = none) :
    badToken i = true := by
  simp [badToken, presentToken, coalToken, jsOr, jget, hl, ha, hf, isStringPrim]

theorem badRepo_of_falsy (i : InputOptions) (v : JSVal)
    (hl : i.repo = some v) (hf : truthy v = false) (ha : i.r = none) :
    badRepo i = true := by
  simp [badRepo, presentRepo, coalRepo, jsOr, jget, hl, ha, hf, isStringPrim]

theorem badMessage_of_falsy (i : InputOptions) (v : JSVal)
    (hl : i.message = some v) (hf : truthy v = false) (ha : i.m = none) :
    badMessage i = true := by
  simp [badMessage, presentMessage, coalMessage, jsOr, jget, hl, ha, hf, isStringPrim]

theorem badSort_of_falsy (i : InputOptions) (v : JSVal)
    (hl : i.sort = some v) (hf : truthy v = false) (ha : i.s = none) :
    badSort i = true := by
  simp [badSort, presentSort, coalSort, jsOr, jget, hl, ha, hf, isBooleanPrim]

theorem badVersion_of_falsy (i : InputOptions) (v : JSVal)
    (hl : i.version = some v) (hf : truthy v = false) (ha : i.v = none) :
    badVersion i = true := by
  simp [badVersion, presentVersion, coalVersion, jsOr, jget, hl, ha, hf, isBooleanPrim]

theorem badHelp_of_falsy (i : InputOptions) (v : JSVal)
    (hl : i.help = some v) (hf : truthy v = false) (ha : i.h = none) :
    badHelp i = true := by
  simp [badHelp, presentHelp, coalHelp, jsOr, jget, hl, ha, hf, isBooleanPrim]

/-! ## Claim C3 -/

/-- C3 (amended): for every configuration whose coalesced `repo`/`r` value is
truthy while the `token`/`t` keys are absent, provided the coalesced
`help` and `version` values are not truthy, the pipeline ends in
`flashError` (non-zero exit) having issued zero network requests.  (When the
help or version flag is truthy the run instead returns early, also without
any network request; see the counterexample.) -/
theorem c3_repo_without_token_fatal_before_fetch (i : InputOptions)
    (ep : Nat → FetchResponse StarredItem) (fuel : Nat)
    (render : String → RenderCtx → String) (tpl : String)
    (hpres : presentRepo i = true) (hrepo : truthy (coalRepo i) = true)
    (htok : i.token = none) (ht : i.t = none)
    (hhelp : truthy (coalHelp i) = false) (hver : truthy (coalVersion i) = false) :
    isFatal (runPipeline initOptions i ep fuel render tpl).2.1 = true ∧
    (runPipeline initOptions i ep fuel render tpl).2.2 = 0 := by
  have hrun : (runPipeline initOptions i ep fuel render tpl).2 =
      afterValidate (validate initOptions i).1 (validate initOptions i).2
        ep fuel render tpl := rfl
  rcases herr : (validate initOptions i).2 with _ | msg
  · have hst := validate_ok_state initOptions i herr
    have hhelpF : truthy ((validate initOptions i).1.help) = false := by
      rw [hst]
      show truthy (vHelp i JSVal.vUndef) = false
      by_cases hp : presentHelp i
      · simpa [vHelp, hp] using hhelp
      · simp [vHelp, hp, truthy]
    have hverF : truthy ((validate initOptions i).1.version) = false := by
      rw [hst]
      show truthy (vVersion i JSVal.vUndef) = false
      by_cases hp : presentVersion i
      · simpa [vVersion, hp] using hver
      · simp [vVersion, hp, truthy]
    have htokF : truthy ((validate initOptions i).1.token) = false := by
      rw [hst]
      show truthy (vToken i JSVal.vUndef) = false
      simp [vToken, presentToken, htok, ht, truthy]
    have hrepoT : truthy ((validate initOptions i).1.repo) = true := by
      rw [hst]
      simp [vRepo, hpres, hrepo]
    by_cases huser : truthy ((validate initOptions i).1.username)
    · have hval : (runPipeline initOptions i ep fuel render tpl).2 =
          (.fatal "Error: creating repository needs token. Set --token", 0) := by
        rw [hrun, herr]
        simp [afterValidate, hhelpF, hverF, huser, hrepoT, htokF]
      simp [hval, isFatal]
    · have hval : (runPipeline initOptions i ep fuel render tpl).2 =
          (.fatal "Error! username is a required field.", 0) := by
        rw [hrun, herr]
        simp [afterValidate, hhelpF, hverF, huser]
      simp [hval, isFatal]
  · have hval : (runPipeline initOptions i ep fuel render tpl).2 = (.fatal msg, 0) := by
      rw [hrun, herr]
      rfl
    simp [hval, isFatal]

/-- C3 witness: the configuration with username `alice` and repo `stars` (no
token) aborts fatally with zero requests issued. -/
theorem c3_witness :
    isFatal (runPipeline initOptions cfgRepoNoToken epEmpty 5 renderConst "").2.1 = true ∧
    (runPipeline initOptions cfgRepoNoToken epEmpty 5 renderConst "").2.2 = 0 :=
  c3_repo_without_token_fatal_before_fetch cfgRepoNoToken epEmpty 5 renderConst ""
    (by decide) (by decide) rfl rfl (by decide) (by decide)

/-- C3 counterexample: with `repo` set, no token, and `help: true`, the run
returns early with no error and no exit code — it does not fail fatally as
the claim requires for every such configuration. -/
theorem c3_counterexample_help_flag_returns_early :
    (runPipeline initOptions cfgHelpRepo epEmpty 5 renderConst "").2 = (RunResult.early, 0) ∧
    isFatal RunResult.early = false := by decide

/-! ## Claim C8 -/

/-- C8: the pipeline is deterministic in its inputs: re-running the exported
function with the same raw options, the same endpoint responses and the same
template — from the module-level record state left behind by the first run —
produces the identical outcome, including byte-identical README content and
request count. -/
theorem c8_rerun_produces_identical_output (i : InputOptions)
    (ep : Nat → FetchResponse StarredItem) (fuel : Nat)
    (render : String → RenderCtx → String) (tpl : String) :
    (runPipeline (runPipeline initOptions i ep fuel render tpl).1 i ep fuel render tpl).2 =
      (runPipeline initOptions i ep fuel render tpl).2 := by
  simp [runPipeline, validate_idem]

/-! ## Claim C9 -/

/-- C9 (amended): the canonical value of each field is `long || short`, so the
validator returns a TypeError whenever a recognized LONG-form key is present
with a falsy value while its short alias is absent (the coalesced value is
then `undefined`): `{username: ""}` fails with the username TypeError even
though `""` is a string, and `{username: "a", sort: false}` fails with the
sort TypeError even though `false` is a boolean; whenever the long alias's
value is falsy, `long || short` evaluates to the short alias's value.  (For
a falsy SHORT key with the long alias absent the coalesced value is the
short value itself, which can pass the check — see the counterexample.) -/
theorem c9_falsy_long_alias_fails_validation :
    (validate initOptions inputUsernameEmpty).2 = some usernameErr ∧
    (validate initOptions inputSortFalse).2 = some sortErr ∧
    (∀ a b : JSVal, truthy a = false → jsOr a b = b) ∧
    (∀ (st : Options) (i : InputOptions),
      ((∃ v, i.username = some v ∧ truthy v = false) ∧ i.u = none) ∨
      ((∃ v, i.token = some v ∧ truthy v = false) ∧ i.t = none) ∨
      ((∃ v, i.repo = some v ∧ truthy v = false) ∧ i.r = none) ∨
      ((∃ v, i.message = some v ∧ truthy v = false) ∧ i.m = none) ∨
      ((∃ v, i.sort = some v ∧ truthy v = false) ∧ i.s = none) ∨
      ((∃ v, i.version = some v ∧ truthy v = false) ∧ i.v = none) ∨
      ((∃ v, i.help = some v ∧ truthy v = false) ∧ i.h = none) →
      (validate st i).2 ≠ none) := by
  refine ⟨by decide, by decide, ?_, ?_⟩
  · intro a b h
    simp [jsOr, h]
  · intro st i hd
    apply validate_err_isSome
    rcases hd with ⟨⟨v, hv, hf⟩, ha⟩ | ⟨⟨v, hv, hf⟩, ha⟩ | ⟨⟨v, hv, hf⟩, ha⟩ |
      ⟨⟨v, hv, hf⟩, ha⟩ | ⟨⟨v, hv, hf⟩, ha⟩ | ⟨⟨v, hv, hf⟩, ha⟩ | ⟨⟨v, hv, hf⟩, ha⟩
    · simp [badUser_of_falsy i v hv hf ha]
    · simp [badToken_of_falsy i v hv hf ha]
    · simp [badRepo_of_falsy i v hv hf ha]
    · simp [badMessage_of_falsy i v hv hf ha]
    · simp [badSort_of_falsy i v hv hf ha]
    · simp [badVersion_of_falsy i v hv hf ha]
    · simp [badHelp_of_falsy i v hv hf ha]

/-- C9 witness: the falsy-coalescing rule and the general falsy-long-alias
rejection instantiated at concrete inputs. -/
theorem c9_witness :
    jsOr JSVal.vNull (JSVal.vStr "x") = JSVal.vStr "x" ∧
    (validate initOptions inputSortFalse).2 ≠ none :=
  ⟨c9_falsy_long_alias_fails_validation.2.2.1 JSVal.vNull (JSVal.vStr "x") rfl,
   c9_falsy_long_alias_fails_validation.2.2.2 initOptions inputSortFalse
     (Or.inr (Or.inr (Or.inr (Or.inr (Or.inl ⟨⟨JSVal.vBool false, rfl, rfl⟩, rfl⟩)))))⟩

/-- C9 counterexample: the recognized key `u` present with the falsy value
`""` and its alias `username` absent does NOT make the validator return a
TypeError: `undefined || ""` is `""`, which passes the string check. -/
theorem c9_counterexample_short_falsy_accepted :
    inputShortUEmpty.u = some (JSVal.vStr "") ∧ truthy (JSVal.vStr "") = false ∧
    inputShortUEmpty.username = none ∧
    (validate initOptions inputShortUEmpty).2 = none := by decide

/-! ## Claim C10 -/

/-- C10: each block writes the coalesced alias value into the shared record
before type-checking it, so on a username TypeError the returned record
already holds the offending value (validation is not atomic on error; the
concrete `sort: 5` run shows the same for a later field); fields whose keys
are absent are never overwritten, so values set by one invocation of the
exported function remain visible to later invocations — concretely, a second
run that sets `repo` but no `token` is NOT stopped by the repo-needs-token
error when a previous run stored a token, although the same input from a
fresh record is. -/
theorem c10_record_written_before_check_and_state_persists :
    (∀ (st : Options) (i : InputOptions), badUser i = true →
      validate st i = ({ st with username := coalUser i }, some usernameErr) ∧
      isStringPrim (coalUser i) = false) ∧
    validate initOptions inputSortNum =
      ({ initOptions with username := .vStr "a", sort := .vNum 5 }, some sortErr) ∧
    (∀ (st : Options) (i : InputOptions),
      (i.username = none → i.u = none → (validate st i).1.username = st.username) ∧
      (i.token = none → i.t = none → (validate st i).1.token = st.token) ∧
      (i.repo = none → i.r = none → (validate st i).1.repo = st.repo) ∧
      (i.message = none → i.m = none → (validate st i).1.message = st.message) ∧
      (i.sort = none → i.s = none → (validate st i).1.sort = st.sort) ∧
      (i.version = none → i.v = none → (validate st i).1.version = st.version) ∧
      (i.help = none → i.h = none → (validate st i).1.help = st.help)) ∧
    (∀ (i1 i2 : InputOptions) (ep : Nat → FetchResponse StarredItem) (fuel : Nat)
      (render : String → RenderCtx → String) (tpl : String),
      i2.token = none → i2.t = none →
      (runPipeline (runPipeline initOptions i1 ep fuel render tpl).1 i2
          ep fuel render tpl).1.token =
        (runPipeline initOptions i1 ep fuel render tpl).1.token) ∧
    (isFatal (runPipeline initOptions inputRun2 epEmpty 5 renderConst "").2.1 = true ∧
     isFatal (runPipeline (runPipeline initOptions inputRun1 epEmpty 5 renderConst "").1
        inputRun2 epEmpty 5 renderConst "").2.1 = false) := by
  refine ⟨?_, by decide, fun st i => validate_persists st i, ?_, by decide⟩
  · intro st i h
    have hp : presentUser i = true := by
      simp [badUser] at h
      exact h.1
    have hns : isStringPrim (coalUser i) = false := by
      simp [badUser] at h
      exact h.2
    refine ⟨?_, hns⟩
    rw [validate_char st i, if_pos h]
    simp [vUser, hp]
  · intro i1 i2 ep fuel render tpl h1 h2
    show ((validate _ i2).1, _).1.token = _
    exact (validate_persists _ i2).2.1 h1 h2

/-- C10 witness: a username TypeError for the non-string value `7` leaves `7`
in the shared record, and a run with no keys leaves the token field
untouched. -/
theorem c10_witness :
    (validate initOptions inputUserNum =
      ({ initOptions with username := coalUser inputUserNum }, some usernameErr) ∧
      isStringPrim (coalUser inputUserNum) = false) ∧
    (validate initOptions inputNone).1.token = initOptions.token :=
  ⟨c10_record_written_before_check_and_state_persists.1 initOptions inputUserNum (by decide),
   (c10_record_written_before_check_and_state_persists.2.2.1 initOptions inputNone).2.1
     rfl rfl⟩

end Stargazed
